import Mathlib

/-!
Shallow embedding of the HunterServer automation client (a LinkedIn job-link
harvester) and proofs about its core behaviours: cookie injection
(`utilities/cookie_manager.py`), the dual-path authenticator (`main.py`),
credential login (`pages/login_page.py`), search submission, filter
application, result extraction and pagination (`pages/job_search_page.py`).

The browser, file system and rendered page are external; they are modelled
as explicit oracle values (records of booleans, functions from poll ticks to
locations, lists of rendered cards) threaded into each embedded function.
Python exceptions are modelled with `Except PyError`; a Python `try/except`
becomes a `match` on that value.
-/

set_option autoImplicit false

/-- Equality of `Except` values is decidable when it is on both sides. -/
instance exceptDecEq {ε α : Type} [DecidableEq ε] [DecidableEq α] :
    DecidableEq (Except ε α)
  | .ok a, .ok b =>
    if h : a = b then .isTrue (by rw [h]) else .isFalse (by simp [h])
  | .ok _, .error _ => .isFalse (by simp)
  | .error _, .ok _ => .isFalse (by simp)
  | .error e, .error f =>
    if h : e = f then .isTrue (by rw [h]) else .isFalse (by simp [h])

/-- Kinds of Python exception the embedded code distinguishes. -/
inductive PyError
  | timeoutError
  | fileNotFound
  | jsonError
  | keyError
  | otherError
deriving DecidableEq, Repr

/-- Boolean test that the character list `p` is an initial segment of `l`. -/
def startsWithChars : List Char → List Char → Bool
  | [], _ => true
  | _ :: _, [] => false
  | p :: ps, c :: cs => (p = c) && startsWithChars ps cs

/-- Boolean test that the character list `pat` occurs contiguously in `l`. -/
def containsChars (pat : List Char) : List Char → Bool
  | [] => pat.isEmpty
  | c :: cs => startsWithChars pat (c :: cs) || containsChars pat cs

/-- Embedding of Python's substring test `pat in s` on strings. -/
def strContains (s pat : String) : Bool :=
  containsChars pat.toList s.toList

/-- One record of the session credential set, as parsed from the cookie
file. Every field is optional because the source reads a JSON dict:
`cookie['name']` raises `KeyError` when absent, `cookie.get('domain', d)`
defaults, and `'path' in cookie` tests presence. -/
structure Cookie where
  name : Option String
  value : Option String
  domain : Option String
  path : Option String
  secure : Option Bool
  httpOnly : Option Bool
deriving DecidableEq, Repr

/-- The dict actually passed to `driver.add_cookie`: `name`, `value` and
`domain` always present, the remaining keys copied only when the source
record has them. -/
structure CookieToAdd where
  name : String
  value : String
  domain : String
  path : Option String
  secure : Option Bool
  httpOnly : Option Bool
deriving DecidableEq, Repr

/-- Embedding of the `cookie_to_add` dict construction inside
`add_cookies_to_driver` (cookie_manager.py lines 38-51). `none` means the
construction raised `KeyError` (missing `name` or `value`), which the
enclosing `except` catches. -/
def cookie_to_add (c : Cookie) : Option CookieToAdd :=
  match c.name, c.value with
  | some n, some v =>
      some { name := n
             value := v
             domain := c.domain.getD ".linkedin.com"
             path := c.path
             secure := c.secure
             httpOnly := c.httpOnly }
  | _, _ => none

/-- Embedding of `add_cookies_to_driver` (cookie_manager.py lines 33-57).
`accept` is the browser's `driver.add_cookie`: `true` means the call
succeeds, `false` that it raises (caught by the `except`, record skipped).
The result is the returned `added_count` paired with the sequence of
records the driver actually accepted, in injection order (an observation of
the driver side effects). -/
def add_cookies_to_driver (accept : CookieToAdd → Bool) : List Cookie → Nat × List CookieToAdd
  | [] => (0, [])
  | c :: rest =>
    match cookie_to_add c with
    | none => add_cookies_to_driver accept rest
    | some ca =>
      if accept ca then
        let r := add_cookies_to_driver accept rest
        (r.1 + 1, ca :: r.2)
      else
        add_cookies_to_driver accept rest

/-- Contents of the cookie file as the file system presents them to
`load_cookies_from_file`: either a parseable list of records or malformed
JSON (which makes `json.load` raise). -/
inductive FileContent
  | cookieList (cs : List Cookie)
  | malformed
deriving Repr

/-- Embedding of `load_cookies_from_file` (cookie_manager.py lines 11-20).
`fs` maps a path to the file found there, `none` when the path does not
exist (the `os.path.exists` test fails and `FileNotFoundError` is raised). -/
def load_cookies_from_file (fs : String → Option FileContent) (path : String) :
    Except PyError (List Cookie) :=
  match fs path with
  | none => .error .fileNotFound
  | some .malformed => .error .jsonError
  | some (.cookieList cs) => .ok cs

/-- Embedding of `cookies_exist` (cookie_manager.py lines 92-94). -/
def cookies_exist (fs : String → Option FileContent) (path : String) : Bool :=
  (fs path).isSome

/-- Oracle for the browser interactions performed by `login_with_cookies`:
whether each navigation step succeeds and the location observed after the
final navigation to the feed route. -/
structure CookieBrowser where
  navRootOk : Bool
  accept : CookieToAdd → Bool
  refreshOk : Bool
  navFeedOk : Bool
  feedUrl : String

/-- Embedding of `login_with_cookies` (cookie_manager.py lines 60-89). The
whole body sits in a `try` whose handlers return `False` for any raised
error, so the embedding is total: a failing step yields `false`. On the
happy path the result is the login-marker check on the feed location. -/
def login_with_cookies (b : CookieBrowser) (fs : String → Option FileContent)
    (path : String) : Bool :=
  if !b.navRootOk then false
  else
    match load_cookies_from_file fs path with
    | .error _ => false
    | .ok cs =>
      let _added := add_cookies_to_driver b.accept cs
      if !b.refreshOk then false
      else if !b.navFeedOk then false
      else !(strContains b.feedUrl "/login" || strContains b.feedUrl "/authwall")

/-- The configuration surface read by `authenticate` (config.py). -/
structure Config where
  auth_method : String
  cookie_file_path : String
  username : String
  password : String

/-- Embedding of `authenticate` (main.py lines 13-48). The credentials
branch delegates to `LoginPage.login`, whose outcome (including an
exception escaping it, since `login` has no handler of its own) is
supplied as the oracle `credLogin`; the cookie branch never lets an
exception escape because `login_with_cookies` catches everything. -/
def authenticate (cfg : Config) (fs : String → Option FileContent)
    (cb : CookieBrowser) (credLogin : Except PyError Bool) : Except PyError Bool :=
  if cfg.auth_method = "cookie" then
    if !(cookies_exist fs cfg.cookie_file_path) then .ok false
    else .ok (login_with_cookies cb fs cfg.cookie_file_path)
  else if cfg.auth_method = "credentials" then
    if cfg.username.isEmpty || cfg.password.isEmpty then .ok false
    else credLogin
  else .ok false

/-- Oracle for the browser state seen by `LoginPage.login`: the location
captured before submitting, visibility of the form fields, clickability of
the submit control, the location at each poll tick of the post-submit
navigation wait, the location read once that wait succeeds, and the text of
the inline error element (`none` when absent or unreadable). -/
structure LoginBrowser where
  baselineUrl : String
  usernameFieldVisible : Bool
  passwordFieldVisible : Bool
  loginButtonClickable : Bool
  urlAt : Nat → String
  finalUrl : String
  errorElementText : Option String

/-- Embedding of `BasePage.wait_for_url_change` (base_page.py lines 26-33):
polls the current location at discrete ticks `0..timeout` and returns
whether it ever differs from the captured baseline; a timeout is caught and
returned as `false`. -/
def wait_for_url_change (urlAt : Nat → String) (current_url : String) (timeout : Nat) : Bool :=
  (List.range (timeout + 1)).any fun t => urlAt t != current_url

/-- Embedding of `LoginPage._is_login_successful` (login_page.py lines 55-57). -/
def is_login_successful (current_url : String) : Bool :=
  !(strContains current_url "/login") && !(strContains current_url "/checkpoint")

/-- Embedding of `LoginPage.login` (login_page.py lines 41-53). The field
waits raise `TimeoutException` when the element never shows up, and `login`
has no handler, so those surface as `.error`; the navigation wait, by
contrast, absorbs its timeout into `False`. The typed text does not affect
the modelled outcome. -/
def login (b : LoginBrowser) (username password : String) : Except PyError Bool :=
  if !b.usernameFieldVisible then .error .timeoutError
  else if !b.passwordFieldVisible then .error .timeoutError
  else if !b.loginButtonClickable then .error .timeoutError
  else if !(wait_for_url_change b.urlAt b.baselineUrl 15) then .ok false
  else .ok (is_login_successful b.finalUrl)

/-- Embedding of `LoginPage.get_error_message` (login_page.py lines 59-64):
best effort read of the inline error element, `none` when the wait for it
fails. -/
def get_error_message (b : LoginBrowser) : Option String :=
  b.errorElementText

/-- The element locators of `JobSearchPage` and `LoginPage` that the
embedded traces mention. -/
inductive Locator
  | searchKeywordInput
  | searchLocationInput
  | searchButton
  | easyApplyFilter
  | jobCards
  | jobTitleLink
  | easyApplyBadge
  | nextPageButton
deriving DecidableEq, Repr

/-- One primitive browser operation issued against the live page, recorded
so that theorems can speak about which elements an operation touches. -/
inductive BrowserAction
  | waitVisible (l : Locator)
  | waitClickable (l : Locator)
  | waitPresent (l : Locator)
  | clearField (l : Locator)
  | typeText (l : Locator) (text : String)
  | pressReturn (l : Locator)
  | click (l : Locator)
  | sleep (seconds : Nat)
deriving DecidableEq, Repr

/-- Trace of `JobSearchPage._wait_for_job_results` (job_search_page.py
lines 54-60): wait for a result card to be present, then, when one appears
(`resultsAppear`), the fixed one-second settling delay; on timeout the
exception is caught and the delay is skipped. -/
def wait_for_job_results_trace (resultsAppear : Bool) : List BrowserAction :=
  if resultsAppear then [.waitPresent .jobCards, .sleep 1]
  else [.waitPresent .jobCards]

/-- Embedding of `JobSearchPage.search_jobs` (job_search_page.py lines
39-52) as the trace of browser operations it issues. Python's `if location:`
is string truthiness, so the location block runs exactly when `location` is
non-empty; submission is `send_keys(Keys.RETURN)` on the keyword field. -/
def search_jobs (keyword location : String) (resultsAppear : Bool) : List BrowserAction :=
  [.waitVisible .searchKeywordInput,
   .clearField .searchKeywordInput,
   .typeText .searchKeywordInput keyword]
  ++ (if location = "" then []
      else [BrowserAction.waitVisible .searchLocationInput,
            .clearField .searchLocationInput,
            .typeText .searchLocationInput location])
  ++ [.pressReturn .searchKeywordInput]
  ++ wait_for_job_results_trace resultsAppear

/-- Whether an action locates, clears, types into, confirms, clicks or
waits on the location input element. -/
def mentionsLocationInput : BrowserAction → Bool
  | .waitVisible .searchLocationInput => true
  | .waitClickable .searchLocationInput => true
  | .waitPresent .searchLocationInput => true
  | .clearField .searchLocationInput => true
  | .typeText .searchLocationInput _ => true
  | .pressReturn .searchLocationInput => true
  | .click .searchLocationInput => true
  | _ => false

/-- Whether an action writes into some input field (clear, type or
keyboard confirm) on anything other than the keyword input. -/
def inputActionOnKeywordOnly : BrowserAction → Bool
  | .clearField .searchKeywordInput => true
  | .clearField _ => false
  | .typeText .searchKeywordInput _ => true
  | .typeText _ _ => false
  | .pressReturn .searchKeywordInput => true
  | .pressReturn _ => false
  | _ => true

/-- Whether an action is a click of the search submit button. -/
def isSearchButtonClick : BrowserAction → Bool
  | .click .searchButton => true
  | _ => false

/-- Oracle for `apply_filters`: whether the filter toggle becomes clickable
within the wait, whether its click succeeds, and whether results re-render
after the click. -/
structure FilterWorld where
  toggleClickable : Bool
  clickOk : Bool
  resultsAppear : Bool

/-- Outcome level of one `apply_filters` call: the filter was applied, or
the failure was absorbed with a warning, or the filter was not requested. -/
inductive FilterOutcome
  | applied
  | warnedSkipped
  | notRequested
deriving DecidableEq, Repr

/-- The `try` block of `apply_filters` (job_search_page.py lines 64-68):
wait for the toggle to be clickable (raising on timeout), click it (which
may raise), then re-run the results wait (which absorbs its own timeout). -/
def apply_filters_try (w : FilterWorld) : Except PyError Unit × List BrowserAction :=
  if !w.toggleClickable then
    (.error .timeoutError, [.waitClickable .easyApplyFilter])
  else if !w.clickOk then
    (.error .otherError, [.waitClickable .easyApplyFilter, .click .easyApplyFilter])
  else
    (.ok (), [.waitClickable .easyApplyFilter, .click .easyApplyFilter]
              ++ wait_for_job_results_trace w.resultsAppear)

/-- Embedding of `JobSearchPage.apply_filters` (job_search_page.py lines
62-72): any exception from the `try` block is caught and reported as a
warning, and the method returns normally either way. -/
def apply_filters (easy_apply : Bool) (w : FilterWorld) : FilterOutcome × List BrowserAction :=
  if easy_apply then
    match apply_filters_try w with
    | (.ok _, tr) => (.applied, tr)
    | (.error _, tr) => (.warnedSkipped, tr)
  else (.notRequested, [])

/-- One rendered result card as `get_easy_apply_job_links` observes it:
the outcome of the badge lookup (`find_elements` on the expedited-apply
badge, giving a count, or raising) and the outcome of the combined title
link lookup plus `get_attribute("href")` (raising, or yielding `None`, or
yielding a string). -/
structure JobCard where
  badge_count : Except PyError Nat
  title_href : Except PyError (Option String)
deriving DecidableEq, Repr

/-- Contribution of one card to the harvested list, i.e. the body of the
per-card `try` in `get_easy_apply_job_links` (job_search_page.py lines
86-99): no badge means no link; a raised lookup is caught by the
`except: continue`; a missing or empty href fails Python's `if job_url:`
truthiness test. -/
def extract_card_link (card : JobCard) : List String :=
  match card.badge_count with
  | .error _ => []
  | .ok 0 => []
  | .ok (_ + 1) =>
    match card.title_href with
    | .error _ => []
    | .ok none => []
    | .ok (some url) => if url.isEmpty then [] else [url]

/-- Embedding of `JobSearchPage.get_easy_apply_job_links` (job_search_page.py
lines 81-100). `cards_present` is the outcome of `get_job_cards`'s presence
wait: on timeout that helper returns `[]` and so does the extraction. -/
def get_easy_apply_job_links (cards_present : Bool) (cards : List JobCard) : List String :=
  if cards_present then (cards.map extract_card_link).flatten else []

/-- Embedding of `JobSearchPage.go_to_next_page` (job_search_page.py lines
102-109): wait for the next-page control to be clickable; on success click
it, re-wait for results and return `true`; on timeout return `false`. -/
def go_to_next_page (nextClickable resultsAppear : Bool) : Bool × List BrowserAction :=
  if nextClickable then
    (true, [.waitClickable .nextPageButton, .click .nextPageButton]
            ++ wait_for_job_results_trace resultsAppear)
  else (false, [.waitClickable .nextPageButton])

/-- A synthetic multi-page result world: `pages` lists the cards rendered
on each page in order; the browser renders `pages.headD []` first and each
activation of the next-page control would reveal the following entry. -/
structure HarvestWorld where
  pages : List (List JobCard)
deriving DecidableEq, Repr

/-- Whether the next-page control is present and actionable while viewing
page `i` (zero-based) of the synthetic world: it is, exactly when a further
page exists — present on pages `1..N-1`, absent on page `N`. -/
def nextActionableAt (w : HarvestWorld) (i : Nat) : Bool :=
  decide (i + 1 < w.pages.length)

/-- The link-extraction step of `run_job_automation` (main.py lines 82-93):
the run calls `get_easy_apply_job_links()` exactly once, against the page
currently rendered (the first), and never invokes `go_to_next_page`. -/
def run_link_extraction (w : HarvestWorld) : List String :=
  get_easy_apply_job_links true (w.pages.headD [])

/-- Modelled from the spec: the `harvestAll` loop described in spec section
4.5 (repeatedly read the current page's links, append, advance, stop when
`advancePage` returns false), which over the synthetic world returns the
concatenation of every page's qualifying links in page order. No such loop
exists in the source; this definition exists to be compared with
`run_link_extraction`. -/
def spec_harvestAll (pages : List (List JobCard)) : List String :=
  (pages.map fun p => get_easy_apply_job_links true p).flatten

/-- A card carrying the expedited-apply badge and a readable job link,
placed on the second synthetic page. -/
def page2Card : JobCard :=
  { badge_count := .ok 1, title_href := .ok (some "https://jobs.example/2") }

/-- A card without the expedited-apply badge, placed on the first synthetic
page. -/
def page1Card : JobCard :=
  { badge_count := .ok 0, title_href := .ok (some "https://jobs.example/1") }

/-- Two synthetic pages: page 1 holds only a badge-less card, page 2 holds
one qualifying card; the next-page control is actionable on page 1 and
absent on page 2. -/
def twoPageWorld : HarvestWorld :=
  { pages := [[page1Card], [page2Card]] }

/-- A record with all mandatory fields present but no `domain`, used to
instantiate the default-domain theorem at a concrete input. -/
def sampleCookie : Cookie :=
  { name := some "li_at"
    value := some "tok"
    domain := none
    path := some "/"
    secure := some true
    httpOnly := none }

/-- A configuration selecting the cookie-replay method, used to instantiate
the missing-session-file theorem at a concrete input. -/
def sampleConfig : Config :=
  { auth_method := "cookie"
    cookie_file_path := "cookie.json"
    username := ""
    password := "" }

/-- A file system holding no files at all. -/
def emptyFs : String → Option FileContent := fun _ => none

/-- A cookie browser on which every navigation step would succeed. -/
def sampleCookieBrowser : CookieBrowser :=
  { navRootOk := true
    accept := fun _ => true
    refreshOk := true
    navFeedOk := true
    feedUrl := "https://www.linkedin.com/feed/" }

/-- A login browser whose post-submit navigation lands on a checkpoint
route, used to instantiate the marker theorem at a concrete input. -/
def checkpointBrowser : LoginBrowser :=
  { baselineUrl := "https://www.linkedin.com/login"
    usernameFieldVisible := true
    passwordFieldVisible := true
    loginButtonClickable := true
    urlAt := fun t => if t = 0 then "https://www.linkedin.com/login"
                      else "https://www.linkedin.com/checkpoint/challenge"
    finalUrl := "https://www.linkedin.com/checkpoint/challenge"
    errorElementText := none }

/-- A login browser whose location never leaves the login route during the
navigation wait, used to instantiate the no-navigation theorem at a
concrete input. -/
def stuckBrowser : LoginBrowser :=
  { baselineUrl := "https://www.linkedin.com/login"
    usernameFieldVisible := true
    passwordFieldVisible := true
    loginButtonClickable := true
    urlAt := fun _ => "https://www.linkedin.com/login"
    finalUrl := "https://www.linkedin.com/login"
    errorElementText := none }

theorem add_cookies_to_driver_eq (accept : CookieToAdd → Bool) (cookies : List Cookie) :
    add_cookies_to_driver accept cookies =
      (((cookies.filterMap cookie_to_add).filter accept).length,
        (cookies.filterMap cookie_to_add).filter accept) := by
  induction cookies with
  | nil => rfl
  | cons c rest ih =>
    cases h : cookie_to_add c with
    | none =>
      simp [add_cookies_to_driver, List.filterMap_cons, h, ih]
    | some ca =>
      cases hacc : accept ca with
      | false =>
        simp [add_cookies_to_driver, List.filterMap_cons, h, hacc, ih, List.filter_cons]
      | true =>
        simp [add_cookies_to_driver, List.filterMap_cons, h, hacc, ih, List.filter_cons]

/-- C2: for every credential set, each record missing the `name` key or the
`value` key is skipped during injection and excluded from the returned
injected count, injection still completes for all other well-formed
records, and the returned count equals the number of records successfully
injected. -/
theorem C2_missing_fields_skipped (accept : CookieToAdd → Bool) (cookies : List Cookie) :
    (add_cookies_to_driver accept cookies).1 = (add_cookies_to_driver accept cookies).2.length
  ∧ (add_cookies_to_driver accept cookies).2 = (cookies.filterMap cookie_to_add).filter accept
  ∧ ∀ c : Cookie, cookie_to_add c = none ↔ (c.name = none ∨ c.value = none) := by
  refine ⟨?_, ?_, ?_⟩
  · rw [add_cookies_to_driver_eq]
  · rw [add_cookies_to_driver_eq]
  · intro c
    rcases c with ⟨n, v, d, pa, s, ho⟩
    cases n <;> cases v <;> simp [cookie_to_add]

/-- C9: a credential record that has `name` and `value` but lacks a
`domain` field is injected with the default domain `.linkedin.com`, while
`path`, `secure` and `httpOnly` are copied exactly as present in the source
record. -/
theorem C9_default_domain (c : Cookie) (n v : String)
    (hn : c.name = some n) (hv : c.value = some v) (hd : c.domain = none) :
    cookie_to_add c = some { name := n, value := v, domain := ".linkedin.com",
                             path := c.path, secure := c.secure, httpOnly := c.httpOnly } := by
  rcases c with ⟨cn, cv, cd, cp, cs, ch⟩
  simp only at hn hv hd
  subst hn hv hd
  simp [cookie_to_add]

/-- Witness for C9 at a concrete record lacking `domain`. -/
theorem C9_witness :
    cookie_to_add sampleCookie
      = some { name := "li_at", value := "tok", domain := ".linkedin.com",
               path := some "/", secure := some true, httpOnly := none } :=
  C9_default_domain sampleCookie "li_at" "tok" rfl rfl rfl

/-- C3: a configuration selecting the cookie-replay method with a
session-file path that does not exist yields the Failed outcome (`false`),
and no exception escapes the authenticator boundary (the result is `.ok`,
never `.error`). -/
theorem C3_missing_cookie_file (cfg : Config) (fs : String → Option FileContent)
    (cb : CookieBrowser) (credLogin : Except PyError Bool)
    (hmethod : cfg.auth_method = "cookie")
    (hmissing : fs cfg.cookie_file_path = none) :
    authenticate cfg fs cb credLogin = .ok false := by
  simp [authenticate, hmethod, cookies_exist, hmissing]

/-- Witness for C3 at a concrete configuration and an empty file system. -/
theorem C3_witness :
    authenticate sampleConfig emptyFs sampleCookieBrowser (.ok true) = .ok false :=
  C3_missing_cookie_file sampleConfig emptyFs sampleCookieBrowser (.ok true) rfl rfl

/-- C4: a credential-login run whose post-submit location still contains
the login-path marker `/login` or the checkpoint-path marker `/checkpoint`
returns Failed (`false`), whatever the state of the inline error-message
element. -/
theorem C4_login_marker_fails (b : LoginBrowser) (u p : String) (em : Option String)
    (h1 : b.usernameFieldVisible = true) (h2 : b.passwordFieldVisible = true)
    (h3 : b.loginButtonClickable = true)
    (h4 : (strContains b.finalUrl "/login" || strContains b.finalUrl "/checkpoint") = true) :
    login { b with errorElementText := em } u p = .ok false := by
  have hfail : is_login_successful b.finalUrl = false := by
    unfold is_login_successful
    have h4' : strContains b.finalUrl "/login" = true
        ∨ strContains b.finalUrl "/checkpoint" = true := by
      simpa using h4
    rcases h4' with h | h <;> simp [h]
  simp [login, h1, h2, h3, hfail]

/-- Witness for C4 at a browser redirected to a checkpoint route, with an
error element present. -/
theorem C4_witness :
    login { checkpointBrowser with errorElementText := some "unexpected" } "user" "pw"
      = .ok false :=
  C4_login_marker_fails checkpointBrowser "user" "pw" (some "unexpected")
    rfl rfl rfl (by decide)

/-- C5: a credential-login run whose location never changes from the
captured baseline at any poll tick of the bounded 15-unit navigation wait
returns Failed (`false`) rather than raising, and the post-submit location
inspection is never reached: the result is the same whatever `finalUrl`
holds. -/
theorem C5_no_navigation_fails (b : LoginBrowser) (u p : String)
    (h1 : b.usernameFieldVisible = true) (h2 : b.passwordFieldVisible = true)
    (h3 : b.loginButtonClickable = true)
    (h4 : ∀ t, t ≤ 15 → b.urlAt t = b.baselineUrl) :
    login b u p = .ok false
  ∧ ∀ s : String, login { b with finalUrl := s } u p = .ok false := by
  have hwait : wait_for_url_change b.urlAt b.baselineUrl 15 = false := by
    unfold wait_for_url_change
    rw [List.any_eq_false]
    intro t ht
    rw [List.mem_range] at ht
    simp [h4 t (by omega)]
  constructor
  · simp [login, h1, h2, h3, hwait]
  · intro s
    simp [login, h1, h2, h3, hwait]

/-- Witness for C5 at a browser that never leaves the login route. -/
theorem C5_witness : login stuckBrowser "user" "pw" = Except.ok false :=
  (C5_no_navigation_fails stuckBrowser "user" "pw" rfl rfl rfl (fun _ _ => rfl)).1

/-- C6: a search submission with the empty location argument never
locates, clears or types into the location input; every field write
targets the keyword input; submission is the keyboard-confirm action on
the keyword field; and no click of the search button occurs. -/
theorem C6_empty_location_search (keyword : String) (resultsAppear : Bool) :
    ((search_jobs keyword "" resultsAppear).all fun a => !(mentionsLocationInput a)) = true
  ∧ ((search_jobs keyword "" resultsAppear).all fun a => inputActionOnKeywordOnly a) = true
  ∧ BrowserAction.pressReturn .searchKeywordInput ∈ search_jobs keyword "" resultsAppear
  ∧ ((search_jobs keyword "" resultsAppear).all fun a => !(isSearchButtonClick a)) = true := by
  cases resultsAppear <;>
    simp [search_jobs, wait_for_job_results_trace, mentionsLocationInput,
          inputActionOnKeywordOnly, isSearchButtonClick]

/-- C7: when the expedited filter toggle never becomes clickable or its
activation throws, `apply_filters` absorbs the failure into a
warning-level outcome and returns normally; on success it clicks the
toggle and re-runs the results wait. -/
theorem C7_filter_failure_absorbed (clickOk resultsAppear : Bool) :
    (apply_filters true ⟨false, clickOk, resultsAppear⟩).1 = .warnedSkipped
  ∧ (apply_filters true ⟨true, false, resultsAppear⟩).1 = .warnedSkipped
  ∧ (apply_filters true ⟨true, true, resultsAppear⟩).1 = .applied
  ∧ (apply_filters true ⟨true, true, resultsAppear⟩).2
      = [.waitClickable .easyApplyFilter, .click .easyApplyFilter]
        ++ wait_for_job_results_trace resultsAppear := by
  cases clickOk <;> cases resultsAppear <;> decide

/-- C8: a card with no expedited-apply badge contributes zero links, a
badged card whose title-link lookup throws contributes zero links, and
such a card in the middle of a page does not abort the page read: the
extraction equals that of the surrounding cards alone. -/
theorem C8_malformed_card_skipped (pre post : List JobCard) (e : PyError) (n : Nat)
    (h : Except PyError (Option String)) :
    extract_card_link { badge_count := .ok 0, title_href := h } = []
  ∧ extract_card_link { badge_count := .ok (n + 1), title_href := .error e } = []
  ∧ get_easy_apply_job_links true
      (pre ++ { badge_count := Except.ok (n + 1), title_href := Except.error e } :: post)
      = get_easy_apply_job_links true pre ++ get_easy_apply_job_links true post := by
  have hbad : extract_card_link
      { badge_count := Except.ok (n + 1), title_href := Except.error e } = [] := rfl
  refine ⟨rfl, hbad, ?_⟩
  simp [get_easy_apply_job_links, List.map_append, List.flatten_append, hbad]

theorem extract_card_link_all_nonempty (c : JobCard) :
    ((extract_card_link c).all fun u => !u.isEmpty) = true := by
  rcases c with ⟨bc, th⟩
  cases bc with
  | error e => rfl
  | ok k =>
    cases k with
    | zero => rfl
    | succ n =>
      cases th with
      | error e => rfl
      | ok o =>
        cases o with
        | none => rfl
        | some url =>
          cases hu : url.isEmpty with
          | true => simp [extract_card_link, hu]
          | false => simp [extract_card_link, hu]

/-- C10: every string in the list returned by the page-link extraction is
non-empty, whatever the rendered cards hold. -/
theorem C10_harvested_links_nonempty (cards_present : Bool) (cards : List JobCard) :
    ((get_easy_apply_job_links cards_present cards).all fun u => !u.isEmpty) = true := by
  cases cards_present with
  | false => rfl
  | true =>
    induction cards with
    | nil => rfl
    | cons c rest ih =>
      have hc := extract_card_link_all_nonempty c
      simp only [get_easy_apply_job_links, List.map_cons, List.flatten_cons,
        List.all_append, if_true] at ih ⊢
      simp [hc, ih]

/-- C1 counterexample: over two synthetic pages — next-page control
actionable on page 1 and absent on page 2, one qualifying link on page 2 —
the run's link extraction returns the empty list, not the concatenation of
both pages' qualifying links, because the run reads only the first page. -/
theorem C1_counterexample :
    run_link_extraction twoPageWorld = []
  ∧ spec_harvestAll twoPageWorld.pages = ["https://jobs.example/2"]
  ∧ run_link_extraction twoPageWorld ≠ spec_harvestAll twoPageWorld.pages
  ∧ (go_to_next_page (nextActionableAt twoPageWorld 0) true).1 = true
  ∧ (go_to_next_page (nextActionableAt twoPageWorld 1) true).1 = false := by
  decide

/-- C1 amended: the run's harvest step reads exactly the first rendered
page — it returns precisely page 1's qualifying links — and it agrees with
the spec's all-page concatenation exactly when pages after the first
contribute no links. -/
theorem C1_run_reads_first_page_only (p : List JobCard) (rest : List (List JobCard)) :
    run_link_extraction { pages := p :: rest } = get_easy_apply_job_links true p
  ∧ (run_link_extraction { pages := p :: rest } = spec_harvestAll (p :: rest)
       ↔ spec_harvestAll rest = []) := by
  constructor
  · rfl
  · unfold run_link_extraction spec_harvestAll
    simp [get_easy_apply_job_links]
